import Mathlib

/-!
Shallow embedding of the php-deno extension (src/lib.rs): the PHP↔JS value
bridge (`zval_from_jsvalue`, `js_value_from_zval`), the op dispatcher
(`op_callback`), the module-loader shim (`ModuleLoader.resolve`), the
`JsRuntime` facade (script/module operations and `snapshot`), the JS-error
translation (`jsExceptionFromJsError`) and the `MainWorker` constructor.
External collaborators (the deno_core runtime, the `url` crate, V8, the PHP
engine) appear either as parameters carrying the result of the external call
or as small models noted in the doc comments.
-/

/-- Key of a PHP array entry: PHP hash tables key entries either by an
integer index or by a string (mirrors `ext_php_rs::types::ArrayKey`). -/
inductive ArrayKey : Type
  | long (n : Int)
  | str (s : String)
  deriving DecidableEq, Repr

/-- A PHP value (`Zval`). Doubles are modelled as rationals, which is exact
for every value the claims mention. A PHP array is its ordered list of
key/value entries; a PHP object is a class name plus ordered string-keyed
properties. -/
inductive Zval : Type
  | zstr (s : String)
  | zlong (n : Int)
  | zdouble (d : ℚ)
  | zbool (b : Bool)
  | znull
  | zarray (entries : List (ArrayKey × Zval))
  | zobject (className : String) (props : List (String × Zval))
  deriving Repr

/-- A JS value as the bridge observes it through V8: strings, null,
undefined, booleans, numbers (modelled as rationals), arrays, functions
(opaque to the bridge) and plain objects with ordered own properties. -/
inductive JsValue : Type
  | jstr (s : String)
  | jnull
  | jundefined
  | jbool (b : Bool)
  | jnum (d : ℚ)
  | jarray (elems : List JsValue)
  | jfunction
  | jobject (props : List (String × JsValue))
  deriving Repr

/-- V8 `Value::IsFunction`. -/
def JsValue.is_function : JsValue → Bool
  | .jfunction => true
  | _ => false

/-- V8 `Value::IsObject`: arrays and functions are objects too. -/
def JsValue.is_object : JsValue → Bool
  | .jarray _ => true
  | .jfunction => true
  | .jobject _ => true
  | _ => false

/-- The stringification of a PHP array key the bridge performs in
`js_value_from_zval`: long keys via `to_string`, string keys verbatim. -/
def keyToString : ArrayKey → String
  | .long n => toString n
  | .str s => s

/-- Whether a PHP array key is a string key (the `ArrayKey::String` arm of
the match in `js_value_from_zval`, which sets `has_string_keys`). -/
def ArrayKey.isStr : ArrayKey → Bool
  | .long _ => false
  | .str _ => true

/-- Zend `HashTable::push` semantics: pushing a list of values into a fresh
array assigns consecutive long keys starting at `i` (the bridge pushes into
a new array, so `i = 0`). -/
def positionalEntriesFrom (i : Int) : List Zval → List (ArrayKey × Zval)
  | [] => []
  | v :: rest => (ArrayKey.long i, v) :: positionalEntriesFrom (i + 1) rest

mutual

/-- Embeds `js_value_from_zval` from src/lib.rs (host → JS direction):
strings, longs and doubles (both become JS numbers via `zval.double()`),
booleans, null, arrays — which become a JS object with all keys stringified
when any key is a string, else a JS array of the values in order — and the
fallthrough (the `Todo: is_object` branch) which yields JS null. -/
def js_value_from_zval : Zval → JsValue
  | .zstr s => .jstr s
  | .zlong n => .jnum (n : ℚ)
  | .zdouble d => .jnum d
  | .zbool b => .jbool b
  | .znull => .jnull
  | .zarray entries =>
      if entries.any (fun kv => kv.1.isStr) then
        .jobject (jsPairsFromEntries entries)
      else
        .jarray ((jsPairsFromEntries entries).map Prod.snd)
  | .zobject _ _ => .jnull

/-- The key/value loop of `js_value_from_zval`'s array branch: stringify
each key and convert each value, preserving entry order. -/
def jsPairsFromEntries : List (ArrayKey × Zval) → List (String × JsValue)
  | [] => []
  | (k, v) :: rest => (keyToString k, js_value_from_zval v) :: jsPairsFromEntries rest

end

mutual

/-- Embeds `zval_from_jsvalue` from src/lib.rs (JS → host direction), with
the source's check order: `is_string`, `is_null_or_undefined`, `is_boolean`,
`is_int32` (an integral number in signed 32-bit range becomes a PHP long via
`integer_value`), `is_number` (PHP double), `is_array` (pushed into a fresh
PHP array, so consecutive long keys), `is_function` (the literal string
"Function"), `is_object` (a `V8Object` PHP object with the own property
names as string keys). Every `JsValue` constructor falls into exactly one of
these branches, so the constructor match realises the source's if-chain. -/
def zval_from_jsvalue : JsValue → Zval
  | .jstr s => .zstr s
  | .jnull => .znull
  | .jundefined => .znull
  | .jbool b => .zbool b
  | .jnum d =>
      if d.den = 1 ∧ -(2 ^ 31) ≤ d.num ∧ d.num < 2 ^ 31 then .zlong d.num
      else .zdouble d
  | .jarray elems => .zarray (positionalEntriesFrom 0 (zvalsFromJsList elems))
  | .jfunction => .zstr "Function"
  | .jobject props => .zobject "V8Object" (zvalPropsFromJsProps props)

/-- The index loop of `zval_from_jsvalue`'s array branch. -/
def zvalsFromJsList : List JsValue → List Zval
  | [] => []
  | v :: rest => zval_from_jsvalue v :: zvalsFromJsList rest

/-- The property loop of `zval_from_jsvalue`'s object branch. -/
def zvalPropsFromJsProps : List (String × JsValue) → List (String × Zval)
  | [] => []
  | (k, v) :: rest => (k, zval_from_jsvalue v) :: zvalPropsFromJsProps rest

end

/-- One frame of a `deno_core::error::JsError`: both fields are optional. -/
structure JsErrorFrame where
  file_name : Option String
  line_number : Option Int
  deriving DecidableEq, Repr

/-- `deno_core::error::JsError` as consumed by the translation: an optional
message and an ordered frame list. -/
structure JsError where
  message : Option String
  frames : List JsErrorFrame
  deriving DecidableEq, Repr

/-- The PHP-visible exception record `Deno\Core\JsException`. -/
structure JsException where
  message : String
  code : Int
  file : String
  line : Int
  trace : List String
  deriving DecidableEq, Repr

/-- Embeds `impl From<deno_core::error::JsError> for JsException` from
src/lib.rs: frame 0 supplies file/line with defaults "unknown"/0, the trace
renders every frame as "file:line" with the same defaults, code is 0 and a
missing message becomes "Unknown JavaScript error.". -/
def jsExceptionFromJsError (error : JsError) : JsException :=
  let source := match error.frames.head? with
    | some frame => (frame.file_name.getD "unknown", frame.line_number.getD 0)
    | none => ("unknown", 0)
  let stack := error.frames.map fun frame =>
    (frame.file_name.getD "unknown") ++ ":" ++ toString (frame.line_number.getD 0)
  { message := error.message.getD "Unknown JavaScript error."
    code := 0
    file := source.1
    line := source.2
    trace := stack }

/-- A `PhpResult` error: either a plain message (the `"...".into()` calls in
src/lib.rs) or a `JsException` carried as the exception object. -/
inductive PhpErr : Type
  | message (s : String)
  | jsException (e : JsException)
  deriving DecidableEq, Repr

/-- Outcome of the external `deno_core` `execute_script` call as observed by
the facade: success (already stringified through V8 `toString`), a JS error
(the successful `downcast::<JsError>` arm), or any other error rendered as a
message (the failed downcast arm). -/
inductive DenoError : Type
  | jsError (e : JsError)
  | other (msg : String)
  deriving DecidableEq, Repr

/-- The mutable state of `Deno\Core\JsRuntime` relevant to the claims: the
two flags, plus the opaque byte buffer the external snapshot producer would
return for this isolate (spec §6 external contract), modelled as a state
component so `snapshot` can return it. -/
structure JsRuntimeState where
  will_snapshot : Bool
  has_snapshotted : Bool
  isolate_snapshot : List Nat
  deriving DecidableEq, Repr

/-- A URL as far as the embedding needs it: the accepted string. -/
structure Url where
  raw : String
  deriving DecidableEq, Repr

/-- The characters before the first colon of a string, or `none` when the
string has no colon. Part of the `urlParse` model below. -/
def schemeChars : List Char → Option (List Char)
  | [] => none
  | c :: rest => if c = ':' then some [] else (schemeChars rest).map (fun l => c :: l)

/-- Modelled from the spec: `url::Url::parse` is an external collaborator
(spec §6; "Module specifier — must resolve to a URL"). Modelled as accepting
exactly the strings with a nonempty alphabetic scheme followed by a colon,
and failing with the crate's "relative URL without a base" message
otherwise. Only the success/failure split matters to the claims. -/
def urlParse (s : String) : Except String Url :=
  match schemeChars s.data with
  | some scheme =>
      if !scheme.isEmpty && scheme.all Char.isAlpha then .ok ⟨s⟩
      else .error "relative URL without a base"
  | none => .error "relative URL without a base"

/-- Embeds `JsRuntime::execute_script` from src/lib.rs: refuse when
`has_snapshotted` is set, otherwise pass through the external runtime's
result, translating a JS error into a `JsException` and any other error into
its message. -/
def JsRuntime.execute_script (rt : JsRuntimeState)
    (denoResult : Except DenoError String) : Except PhpErr String :=
  if rt.has_snapshotted then
    .error (.message "Scripts can not be executed after JsRuntime has been snapshotted.")
  else
    match denoResult with
    | .ok value_str => .ok value_str
    | .error (.jsError e) => .error (.jsException (jsExceptionFromJsError e))
    | .error (.other msg) => .error (.message msg)

/-- Embeds `JsRuntime::load_main_module` from src/lib.rs: URL-parse the
specifier (failure becomes the parse error's message), then pass through the
external runtime's load result (a module id or an error message). Note the
source consults neither runtime flag here. -/
def JsRuntime.load_main_module (_rt : JsRuntimeState) (specifier : String)
    (denoResult : Except String Nat) : Except PhpErr Nat :=
  match urlParse specifier with
  | .error err => .error (.message err)
  | .ok _ =>
      match denoResult with
      | .ok module_id => .ok module_id
      | .error e => .error (.message e)

/-- Embeds `JsRuntime::mod_evaluate` from src/lib.rs: drive the event loop
first (its error is reported first), then report the evaluation future's
result. Neither runtime flag is consulted. -/
def JsRuntime.mod_evaluate (_rt : JsRuntimeState) (loopResult : Except String Unit)
    (evalResult : Except String Unit) : Except PhpErr Unit :=
  match loopResult with
  | .error e => .error (.message e)
  | .ok _ =>
      match evalResult with
      | .ok _ => .ok ()
      | .error e => .error (.message e)

/-- Embeds `JsRuntime::run_event_loop` from src/lib.rs: pass through the
external event-loop result. Neither runtime flag is consulted. -/
def JsRuntime.run_event_loop (_rt : JsRuntimeState)
    (loopResult : Except String Unit) : Except PhpErr Unit :=
  match loopResult with
  | .ok _ => .ok ()
  | .error e => .error (.message e)

/-- Embeds `JsRuntime::snapshot` from src/lib.rs: with `will_snapshot`
unset, fail with the source's message (misspelling included) and leave the
state untouched; otherwise return the isolate's snapshot bytes and set
`has_snapshotted`. The returned pair is (result, state after the call). -/
def JsRuntime.snapshot (rt : JsRuntimeState) :
    Except PhpErr (List Nat) × JsRuntimeState :=
  if rt.will_snapshot = false then
    (.error (.message "Unable to shapshot JsRuntime when RuntimeOptions.will_snapshot is not true."), rt)
  else
    (.ok rt.isolate_snapshot, { rt with has_snapshotted := true })

/-- Behaviour of the PHP `string()` accessor used by the loader shim: a
string for string zvals, `none` for everything else. -/
def zvalString : Zval → Option String
  | .zstr s => some s
  | _ => none

/-- Embeds `deno_core::ModuleLoader::resolve` for the shim in src/lib.rs.
`hslResolve` is the PHP loader's `resolve` method as invoked through
`call_user_method!`: it receives specifier, referrer and the is-main flag,
and `none` models a failed call. A missing or non-string result fails with
the source's message; otherwise the string is URL-parsed and a parse failure
propagates the parser's message. -/
def ModuleLoader.resolve (hslResolve : String → String → Bool → Option Zval)
    (specifier referrer : String) (is_main : Bool) : Except String Url :=
  match hslResolve specifier referrer is_main with
  | some result =>
      match zvalString result with
      | some s =>
          match urlParse s with
          | .ok u => .ok u
          | .error err => .error err
      | none => .error "resolve() did not return a valid string."
  | none => .error "resolve() did not return a valid string."

/-- Behaviour of a registered PHP op callable as observed through
`try_call`: arguments in, either a result zval or a PHP error. -/
def PhpCallable : Type := List Zval → Except String Zval

/-- What `op_callback` in src/lib.rs does to its V8 invocation, as JS and
the host can observe it: the missing-name branch prints to stdout and
returns with the return value still unset (JS sees `undefined`); a raising
callable hits `.unwrap()` and panics, aborting the process; a successful
call sets the converted return value. No branch throws into the isolate. -/
inductive OpOutcome : Type
  | lookupMissing (printed : String)
  | panic (msg : String)
  | value (v : JsValue)

/-- Embeds `op_callback` from src/lib.rs. `callbacks` is the registry stored
in the isolate slot (keyed by op name), `callback_name` is `ctx.decl.name`,
`args` the V8 arguments. The missing-name branch prints
`callback not found {:#?}` (debug framing quotes the name) and returns; a
found callable receives every argument converted by `zval_from_jsvalue` in
order, its error makes the `.unwrap()` panic, and its result is converted
back by `js_value_from_zval` and set as the JS return value. -/
def op_callback (callbacks : List (String × PhpCallable)) (callback_name : String)
    (args : List JsValue) : OpOutcome :=
  match callbacks.lookup callback_name with
  | none => .lookupMissing ("callback not found \"" ++ callback_name ++ "\"")
  | some callback =>
      match callback (args.map zval_from_jsvalue) with
      | .error _ => .panic "called unwrap on an Err value returned by try_call"
      | .ok return_value => .value (js_value_from_zval return_value)

/-- Result of running a Rust function that may panic (abort the host
process) rather than return. -/
inductive RustOutcome (α : Type) : Type
  | ok (a : α)
  | panic (msg : String)

/-- The state `MainWorker::__construct` builds on success. -/
structure MainWorkerState where
  main_module : Url

/-- Embeds `MainWorker::__construct` from src/lib.rs. The results of the two
external calls are parameters: `resolvePathResult` is what
`deno_core::resolve_path(main_module)` returned, `permissionsResult` what
`Permissions::from_options` returned. The source applies `.unwrap()` to the
former, so its error branch panics instead of producing a `PhpResult`
error; a permissions failure produces the source's message. -/
def MainWorker.construct (resolvePathResult : Except String Url)
    (permissionsResult : Except String Unit) :
    RustOutcome (Except String MainWorkerState) :=
  match resolvePathResult with
  | .error _ => .panic "called unwrap on an Err value returned by resolve_path"
  | .ok main_module =>
      match permissionsResult with
      | .error _ => .ok (.error "Unable to parse permissions.")
      | .ok _ => .ok (.ok ⟨main_module⟩)

theorem jsPairsFromEntries_eq_map (entries : List (ArrayKey × Zval)) :
    jsPairsFromEntries entries =
      entries.map (fun kv => (keyToString kv.1, js_value_from_zval kv.2)) := by
  induction entries with
  | nil => rfl
  | cons kv rest ih => cases kv; simp [jsPairsFromEntries, ih]

theorem positional_no_string_key (i : Int) (vals : List Zval) :
    (positionalEntriesFrom i vals).any (fun kv => kv.1.isStr) = false := by
  induction vals generalizing i with
  | nil => rfl
  | cons v rest ih =>
      show ((ArrayKey.long i, v) :: positionalEntriesFrom (i + 1) rest).any
        (fun kv => kv.1.isStr) = false
      rw [List.any_cons, ih (i + 1)]
      rfl

theorem positional_values (i : Int) (vals : List Zval) :
    (jsPairsFromEntries (positionalEntriesFrom i vals)).map Prod.snd =
      vals.map js_value_from_zval := by
  induction vals generalizing i with
  | nil => rfl
  | cons v rest ih => simp [positionalEntriesFrom, jsPairsFromEntries, ih]

/-- Claim C1 (corrected), counterexample to the claim as stated: a runtime
whose `has_snapshotted` flag is true still runs `run_event_loop`
successfully — the source checks the flag only in `execute_script`, so not
every script/module operation fails after a snapshot. -/
theorem run_event_loop_after_snapshot_ok :
    JsRuntime.run_event_loop ⟨true, true, []⟩ (Except.ok ()) = Except.ok () := rfl

/-- Claim C1 (corrected, amended): when `has_snapshotted` is true,
`execute_script` always fails with the snapshotted message, while
`load_main_module`, `mod_evaluate` and `run_event_loop` never consult the
flag — each behaves exactly as it would with the flag cleared. -/
theorem snapshotted_flag_behavior (rt : JsRuntimeState)
    (h : rt.has_snapshotted = true) :
    (∀ r, JsRuntime.execute_script rt r =
        .error (.message "Scripts can not be executed after JsRuntime has been snapshotted.")) ∧
    (∀ s r, JsRuntime.load_main_module rt s r =
        JsRuntime.load_main_module { rt with has_snapshotted := false } s r) ∧
    (∀ l e, JsRuntime.mod_evaluate rt l e =
        JsRuntime.mod_evaluate { rt with has_snapshotted := false } l e) ∧
    (∀ l, JsRuntime.run_event_loop rt l =
        JsRuntime.run_event_loop { rt with has_snapshotted := false } l) := by
  refine ⟨fun r => ?_, fun s r => rfl, fun l e => rfl, fun l => rfl⟩
  simp [JsRuntime.execute_script, h]

/-- Concrete instance of `snapshotted_flag_behavior` on a snapshotted
runtime state. -/
theorem snapshotted_flag_behavior_witness :
    JsRuntime.execute_script ⟨true, true, []⟩ (Except.ok "1") =
      .error (.message "Scripts can not be executed after JsRuntime has been snapshotted.") :=
  (snapshotted_flag_behavior ⟨true, true, []⟩ rfl).1 (Except.ok "1")

/-- Claim C2 (code bug): invoking an op whose name is absent from the
registry does not raise a JS exception — `op_callback` prints
`callback not found "<name>"` to stdout and returns with the JS return
value unset, so the call silently yields `undefined`. The source even marks
the branch `// todo: error`. This theorem evaluates the dispatcher at the
failing input. -/
theorem missing_op_lookup_behavior :
    op_callback [] "missing_op" [] =
      .lookupMissing ("callback not found \"missing_op\"") := rfl

/-- Claim C3 (corrected), counterexample to the claim as stated: an op whose
PHP callable raises makes the dispatcher panic (the `.unwrap()` on the
`try_call` result), aborting the process — it does not surface a JS
exception carrying the error text. -/
theorem raising_callable_panics_counterexample :
    op_callback [("boom", fun _ => Except.error "boom failed")] "boom" [] =
      .panic "called unwrap on an Err value returned by try_call" := rfl

/-- Claim C3 (corrected, amended): whenever the registry lookup succeeds and
the PHP callable raises, `op_callback` panics via `.unwrap()`; the HSL
error is never surfaced to the calling JS code. -/
theorem raising_callable_panics (callbacks : List (String × PhpCallable))
    (callback_name : String) (f : PhpCallable) (args : List JsValue) (err : String)
    (hfind : callbacks.lookup callback_name = some f)
    (hraise : f (args.map zval_from_jsvalue) = .error err) :
    op_callback callbacks callback_name args =
      .panic "called unwrap on an Err value returned by try_call" := by
  simp [op_callback, hfind, hraise]

/-- Concrete instance of `raising_callable_panics`. -/
theorem raising_callable_panics_witness :
    op_callback [("op1", fun _ => Except.error "nope")] "op1" [.jnum 3] =
      .panic "called unwrap on an Err value returned by try_call" :=
  raising_callable_panics [("op1", fun _ => Except.error "nope")] "op1"
    (fun _ => Except.error "nope") [.jnum 3] "nope" rfl rfl

/-- Claim C4 (confirmed): each scalar in the claim's list — null, true,
false, 0, 1, -1, 2.5 (the rational `mkRat 5 2`), "" and "héllo" — survives
the host → JS → host round trip unchanged. -/
theorem scalar_roundtrip :
    zval_from_jsvalue (js_value_from_zval .znull) = .znull ∧
    zval_from_jsvalue (js_value_from_zval (.zbool true)) = .zbool true ∧
    zval_from_jsvalue (js_value_from_zval (.zbool false)) = .zbool false ∧
    zval_from_jsvalue (js_value_from_zval (.zlong 0)) = .zlong 0 ∧
    zval_from_jsvalue (js_value_from_zval (.zlong 1)) = .zlong 1 ∧
    zval_from_jsvalue (js_value_from_zval (.zlong (-1))) = .zlong (-1) ∧
    zval_from_jsvalue (js_value_from_zval (.zdouble (mkRat 5 2))) = .zdouble (mkRat 5 2) ∧
    zval_from_jsvalue (js_value_from_zval (.zstr "")) = .zstr "" ∧
    zval_from_jsvalue (js_value_from_zval (.zstr "héllo")) = .zstr "héllo" :=
  ⟨rfl, rfl, rfl, rfl, rfl, rfl, rfl, rfl, rfl⟩

/-- Claim C5 (confirmed): for every JS error, the translated exception takes
file and line from frame 0 (with defaults "unknown" and 0 when the frame or
its fields are missing), renders the trace as "file:line" per frame with the
same defaults in original order, sets code to 0, and uses the error's
message or "Unknown JavaScript error." when absent. -/
theorem jsexception_translation (e : JsError) :
    (jsExceptionFromJsError e).file =
      ((e.frames.head?.bind JsErrorFrame.file_name).getD "unknown") ∧
    (jsExceptionFromJsError e).line =
      ((e.frames.head?.bind JsErrorFrame.line_number).getD 0) ∧
    (jsExceptionFromJsError e).trace =
      e.frames.map (fun f =>
        (f.file_name.getD "unknown") ++ ":" ++ toString (f.line_number.getD 0)) ∧
    (jsExceptionFromJsError e).code = 0 ∧
    (jsExceptionFromJsError e).message = e.message.getD "Unknown JavaScript error." := by
  obtain ⟨msg, frames⟩ := e
  cases frames <;> simp [jsExceptionFromJsError]

/-- Claim C6 (confirmed): `snapshot` with `will_snapshot` unset fails with
the no-snapshot-flag message and leaves the runtime state unchanged; with
`will_snapshot` set it returns the isolate's snapshot bytes and sets
`has_snapshotted`. -/
theorem snapshot_spec (rt : JsRuntimeState) :
    (rt.will_snapshot = false →
      JsRuntime.snapshot rt =
        (.error (.message "Unable to shapshot JsRuntime when RuntimeOptions.will_snapshot is not true."), rt)) ∧
    (rt.will_snapshot = true →
      JsRuntime.snapshot rt =
        (.ok rt.isolate_snapshot, { rt with has_snapshotted := true })) := by
  constructor <;> intro h <;> simp [JsRuntime.snapshot, h]

/-- Concrete instances of both branches of `snapshot_spec`. -/
theorem snapshot_spec_witness :
    JsRuntime.snapshot ⟨false, false, [1, 2]⟩ =
      (.error (.message "Unable to shapshot JsRuntime when RuntimeOptions.will_snapshot is not true."),
        ⟨false, false, [1, 2]⟩) ∧
    JsRuntime.snapshot ⟨true, false, [7]⟩ = (.ok [7], ⟨true, true, [7]⟩) :=
  ⟨(snapshot_spec ⟨false, false, [1, 2]⟩).1 rfl, (snapshot_spec ⟨true, false, [7]⟩).2 rfl⟩

/-- Claim C7 (corrected), counterexample to the claim as stated: when the
HSL loader returns a non-string, the shim's error message is
"resolve() did not return a valid string." — not the claimed
"resolve did not return a valid string". -/
theorem resolve_nonstring_message_counterexample :
    ModuleLoader.resolve (fun _ _ _ => some (.zlong 1)) "foo" "file:///a" true ≠
      Except.error "resolve did not return a valid string" := by
  intro h
  have h2 : "resolve() did not return a valid string." =
      "resolve did not return a valid string" := Except.error.inj h
  exact absurd h2 (by decide)

/-- Claim C7 (corrected, amended): if the HSL resolve call fails or returns
a non-string, the shim fails with the message
"resolve() did not return a valid string."; if the returned string does not
parse as a URL the shim fails with the parser's error; otherwise it returns
the parsed URL. -/
theorem resolve_shim_spec (hsl : String → String → Bool → Option Zval)
    (specifier referrer : String) (is_main : Bool) :
    (hsl specifier referrer is_main = none →
      ModuleLoader.resolve hsl specifier referrer is_main =
        .error "resolve() did not return a valid string.") ∧
    (∀ z, hsl specifier referrer is_main = some z → zvalString z = none →
      ModuleLoader.resolve hsl specifier referrer is_main =
        .error "resolve() did not return a valid string.") ∧
    (∀ s e, hsl specifier referrer is_main = some (.zstr s) → urlParse s = .error e →
      ModuleLoader.resolve hsl specifier referrer is_main = .error e) ∧
    (∀ s u, hsl specifier referrer is_main = some (.zstr s) → urlParse s = .ok u →
      ModuleLoader.resolve hsl specifier referrer is_main = .ok u) := by
  refine ⟨fun h => ?_, fun z h hz => ?_, fun s e h hp => ?_, fun s u h hp => ?_⟩
  · simp [ModuleLoader.resolve, h]
  · simp [ModuleLoader.resolve, h, hz]
  · simp [ModuleLoader.resolve, h, zvalString, hp]
  · simp [ModuleLoader.resolve, h, zvalString, hp]

/-- Concrete instances of `resolve_shim_spec`: a failed HSL call and a
successful resolution of "file:///foo.js". -/
theorem resolve_shim_spec_witness :
    ModuleLoader.resolve (fun _ _ _ => none) "foo" "file:///a" true =
      .error "resolve() did not return a valid string." ∧
    ModuleLoader.resolve (fun _ _ _ => some (.zstr "file:///foo.js")) "foo" "file:///a" true =
      .ok ⟨"file:///foo.js"⟩ :=
  ⟨(resolve_shim_spec (fun _ _ _ => none) "foo" "file:///a" true).1 rfl,
    (resolve_shim_spec (fun _ _ _ => some (.zstr "file:///foo.js")) "foo" "file:///a" true).2.2.2
      "file:///foo.js" ⟨"file:///foo.js"⟩ rfl rfl⟩

/-- Claim C8 (confirmed): every JS function value converts to the literal
host string "Function", and every JS function also satisfies V8's object
check — so the function branch fires although the later object branch would
match, and function identity is never passed through. -/
theorem js_function_to_host (v : JsValue) (h : v.is_function = true) :
    zval_from_jsvalue v = .zstr "Function" ∧ v.is_object = true := by
  cases v <;> first
    | exact ⟨rfl, rfl⟩
    | simp [JsValue.is_function] at h

/-- Concrete instance of `js_function_to_host` at a JS function value. -/
theorem js_function_to_host_witness :
    zval_from_jsvalue .jfunction = .zstr "Function" ∧
      JsValue.jfunction.is_object = true :=
  js_function_to_host .jfunction rfl

/-- Claim C9 (confirmed): a host array whose keys are numeric-positional
converts to a JS array of the recursively converted values in order, and a
host array with at least one string key converts to a JS object whose
properties are the stringified keys paired with the recursively converted
values. -/
theorem keyed_sequence_conversion :
    (∀ vals : List Zval,
      js_value_from_zval (.zarray (positionalEntriesFrom 0 vals)) =
        .jarray (vals.map js_value_from_zval)) ∧
    (∀ entries : List (ArrayKey × Zval),
      (∃ s, ArrayKey.str s ∈ entries.map Prod.fst) →
      js_value_from_zval (.zarray entries) =
        .jobject (entries.map (fun kv => (keyToString kv.1, js_value_from_zval kv.2)))) := by
  constructor
  · intro vals
    simp [js_value_from_zval, positional_no_string_key, positional_values]
  · rintro entries ⟨s, hs⟩
    obtain ⟨kv, hkv, hfst⟩ := List.mem_map.mp hs
    have hany : entries.any (fun kv => kv.1.isStr) = true :=
      List.any_eq_true.mpr ⟨kv, hkv, by rw [hfst]; rfl⟩
    simp [js_value_from_zval, hany, jsPairsFromEntries_eq_map]

/-- Concrete instances of `keyed_sequence_conversion`: the positional array
[10, 20, 30] and the string-keyed array with keys "a" and "b". -/
theorem keyed_sequence_conversion_witness :
    js_value_from_zval (.zarray (positionalEntriesFrom 0 [.zlong 10, .zlong 20, .zlong 30])) =
      .jarray [.jnum 10, .jnum 20, .jnum 30] ∧
    js_value_from_zval (.zarray [(.str "a", .zlong 1), (.str "b", .zlong 2)]) =
      .jobject [("a", .jnum 1), ("b", .jnum 2)] :=
  ⟨keyed_sequence_conversion.1 [.zlong 10, .zlong 20, .zlong 30],
    keyed_sequence_conversion.2 [(.str "a", .zlong 1), (.str "b", .zlong 2)]
      ⟨"a", by simp⟩⟩

/-- Claim C10 (confirmed): whenever the external path resolution of the main
module fails, `MainWorker::__construct` panics (the `.unwrap()` on
`resolve_path`), aborting the host process — the failure never reaches the
`PhpResult` error channel, whatever the permissions outcome is. -/
theorem main_worker_construct_panic (err : String)
    (permissionsResult : Except String Unit) :
    MainWorker.construct (.error err) permissionsResult =
      .panic "called unwrap on an Err value returned by resolve_path" := rfl
